import Mathlib

/-!
Shallow embedding of the Buildinator build-iteration engine
(src/buildinator.py together with src/config.py).

Modelling choices, stated once:

* The two SQLAlchemy models `Iteration` and `App` become Lean structures
  holding their column values.
* Python objects live on an object heap `List (Nat × AppData)`; the object
  id doubles as the row's primary key (each `App` row is created exactly
  once, by `build`).  `rows` lists the ids of the `App` objects that are
  currently rows of the database; `build_queue.put(app)` puts a reference
  to the live object, so the queue is a list of heap ids, and an id can
  stay on the queue after its row was deleted (the Python object is kept
  alive by the queue's reference).
* The two external calls are parameters: `oracle` stands for the whole
  body of the `try:` block of `run_llm` up to obtaining the response text
  (llama instantiation / HTTP call; an exception there is `.error`), and
  `docker` stands for `client.containers.run` plus `container.logs(...)
  .decode` (an exception anywhere in that chain is `.error`).  The
  `requirements.txt` file write in `execute_code` is a filesystem side
  effect with no bearing on any recorded state and is not modelled.
* Exceptions are `Except String`: a `.error` value is an exception
  propagating past the point where the source has no handler.
-/

structure IterationData where
  app_name : String
  prompt : String
  input_code : String
  output_code : String
  build_output : String
  is_release_candidate : Bool
deriving Repr, DecidableEq

structure AppData where
  name : String
  prompt : String
  input_code : String
  language : String
  is_queued : Bool
deriving Repr, DecidableEq

/-- Whole-system state: object heap, database rows (`App` ids in insertion
order), the FIFO `build_queue` (heap ids, front = next dequeued), the
append-only `Iteration` table, and the next fresh primary key. -/
structure SysState where
  heap : List (Nat × AppData)
  rows : List Nat
  queue : List Nat
  iterations : List IterationData
  nextId : Nat
deriving Repr, DecidableEq

def initState : SysState := ⟨[], [], [], [], 0⟩

/-- Read a heap object by id (Python attribute access on a live object).
The default is never reached on states built by the operations below. -/
def heapGet (h : List (Nat × AppData)) (i : Nat) : AppData :=
  match h.find? (fun p => p.1 == i) with
  | some p => p.2
  | none => ⟨"", "", "", "", false⟩

/-- Mutate (or create) the heap object with id `i`. -/
def heapSet (h : List (Nat × AppData)) (i : Nat) (a : AppData) : List (Nat × AppData) :=
  (i, a) :: h.filter (fun p => p.1 != i)

/-- Characters removed by Python's `str.strip()` with no argument. -/
def pyWhitespace (c : Char) : Bool :=
  c == ' ' || c == '\t' || c == '\n' || c == '\r' || c == '\x0b' || c == '\x0c'

/-- Python `s.strip()`. -/
def pyStrip (s : String) : String :=
  String.mk (((s.data.dropWhile pyWhitespace).reverse.dropWhile pyWhitespace).reverse)

/-- Fuel-driven core of Python `str.split(sep)` for a non-empty separator:
scan left to right, cutting at each non-overlapping occurrence of `sep`.
The fuel `s.length + 1` always suffices, since every step consumes at
least one character of the remaining input. -/
def pySplitGo (sep : List Char) : Nat → List Char → List Char → List (List Char)
  | 0, rest, acc => [acc.reverse ++ rest]
  | _ + 1, [], acc => [acc.reverse]
  | fuel + 1, c :: cs, acc =>
    if sep.isPrefixOf (c :: cs) then
      acc.reverse :: pySplitGo sep fuel (List.drop sep.length (c :: cs)) []
    else
      pySplitGo sep fuel cs (c :: acc)

/-- Python `s.split(sep)` for a non-empty `sep` (the only use in the
source is `sep = "```"`). -/
def pySplit (sep s : String) : List String :=
  (pySplitGo sep.data (s.length + 1) s.data []).map String.mk

/-- The fenced-code delimiter used by `run_llm`. -/
def fence : String := "```"

/-- `run_llm(prompt, input_code, language)` (src/buildinator.py:69-126).
The whole body is inside `try: ... except Exception: return input_code`,
so an oracle exception (`.error`) and an `IndexError` from
`text.split("```")[1]` both yield `input_code`.  On success the code
takes `text.split("```")[1].split("```")[0]`; the second split of a
segment produced by the first split never finds the separator again, so
`[0]` is the segment itself (modelled with `headD`). -/
def run_llm (oracle : String → String → String → Except String String)
    (prompt input_code language : String) : String :=
  match oracle prompt input_code language with
  | .error _ => input_code
  | .ok text =>
    match (pySplit fence text)[1]? with
    | none => input_code
    | some seg => (pySplit fence seg).headD seg

/-- `execute_code(code, language)` (src/buildinator.py:129-169).  There is
no exception handler: a `docker` failure (`.error`) propagates to the
caller.  For a language other than `"py"` and `"cs"` the function falls
off the end and returns Python `None`, modelled as `.ok none`. -/
def execute_code (docker : String → String → Except String String)
    (code language : String) : Except String (Option String) :=
  if language == "py" then (docker code language).map some
  else if language == "cs" then (docker code language).map some
  else .ok none

/-- `App.query.filter_by(name=app_name).first()`: the first database row
whose `name` column matches. -/
def dbFirstByName (st : SysState) (app_name : String) : Option Nat :=
  st.rows.find? (fun i => (heapGet st.heap i).name == app_name)

/-- The `/build` route handler (src/buildinator.py:334-357): create the
`App` row or overwrite the existing one in place, set `is_queued`, commit,
and `build_queue.put(app)` — the live object's reference goes onto the
queue.  There is no duplicate-iteration guard anywhere on this path. -/
def build (st : SysState) (app_name prompt language input_code : String) : SysState :=
  match dbFirstByName st app_name with
  | some i =>
    let a := heapGet st.heap i
    let a2 : AppData :=
      { a with prompt := prompt, input_code := input_code,
               language := language, is_queued := true }
    { st with heap := heapSet st.heap i a2, queue := st.queue ++ [i] }
  | none =>
    let i := st.nextId
    { st with
        heap := heapSet st.heap i ⟨app_name, prompt, input_code, language, true⟩,
        rows := st.rows ++ [i],
        queue := st.queue ++ [i],
        nextId := i + 1 }

/-- The `/delete_app/<app_id>` route (src/buildinator.py:364-370): delete
the row with that primary key if it exists.  Only the `App` row goes; the
heap object survives while referenced (e.g. from the queue), and the
`Iteration` table is untouched. -/
def delete_app (st : SysState) (app_id : Nat) : SysState :=
  if st.rows.contains app_id then { st with rows := st.rows.erase app_id } else st

/-- The `/remove_from_queue/<app_id>` route (src/buildinator.py:380-386):
flip the row's `is_queued` flag to false.  The `build_queue` itself is not
touched. -/
def remove_from_queue (st : SysState) (app_id : Nat) : SysState :=
  if st.rows.contains app_id then
    let a := heapGet st.heap app_id
    { st with heap := heapSet st.heap app_id ({ a with is_queued := false }) }
  else st

/-- One pass of `build_worker` (src/buildinator.py:419-448) on the item at
the front of the queue: dequeue the object reference, run the oracle
adapter on the object's current fields, run the sandbox, record the
`Iteration` with `is_release_candidate = (build_output.strip() == "")`,
and clear the object's `is_queued` flag.  The loop body has no exception
handler, so a `docker` exception — or the `AttributeError` from
`build_output.strip()` when `execute_code` returned `None` — propagates
out of the pass (`.error`).  An empty queue blocks in `build_queue.get()`;
a blocked pass changes nothing. -/
def build_worker_pass (oracle : String → String → String → Except String String)
    (docker : String → String → Except String String)
    (st : SysState) : Except String SysState :=
  match st.queue with
  | [] => .ok st
  | i :: rest =>
    let a := heapGet st.heap i
    let output_code := run_llm oracle a.prompt a.input_code a.language
    match execute_code docker output_code a.language with
    | .error e => .error e
    | .ok none => .error "AttributeError: NoneType object has no attribute strip"
    | .ok (some build_output) =>
      let it : IterationData :=
        ⟨a.name, a.prompt, a.input_code, output_code, build_output,
          pyStrip build_output == ""⟩
      .ok { st with
              queue := rest,
              iterations := st.iterations ++ [it],
              heap := heapSet st.heap i ({ a with is_queued := false }) }

/-- `n` consecutive passes of the single worker loop; an exception in any
pass kills the worker thread, so later passes never run. -/
def runPasses (oracle : String → String → String → Except String String)
    (docker : String → String → Except String String) :
    Nat → SysState → Except String SysState
  | 0, st => .ok st
  | n + 1, st =>
    match build_worker_pass oracle docker st with
    | .error e => .error e
    | .ok st' => runPasses oracle docker n st'

/-- The `name` column of every current database row, in row order. -/
def rowNames (st : SysState) : List String :=
  st.rows.map (fun i => (heapGet st.heap i).name)

/-- The state left behind by a successful worker pass that dequeued `i`
and whose sandbox run produced `bo`; used to state the pass lemmas. -/
def passResult (oracle : String → String → String → Except String String)
    (st : SysState) (i : Nat) (rest : List Nat) (bo : String) : SysState :=
  let a := heapGet st.heap i
  let oc := run_llm oracle a.prompt a.input_code a.language
  { st with
      queue := rest,
      iterations := st.iterations ++ [⟨a.name, a.prompt, a.input_code, oc, bo, pyStrip bo == ""⟩],
      heap := heapSet st.heap i ({ a with is_queued := false }) }

/-- Number of recorded iterations in the outcome of a worker run; an
exception outcome has recorded nothing beyond what the crash left behind,
observed here as zero for a run started from a known state. -/
def iterCount : Except String SysState → Nat
  | .ok s => s.iterations.length
  | .error _ => 0

/-- Number of recorded iterations for one application name in the outcome
of a worker run. -/
def iterCountFor (name : String) : Except String SysState → Nat
  | .ok s => (s.iterations.filter (fun it => it.app_name == name)).length
  | .error _ => 0

/- Concrete adapter behaviours used to evaluate the model. -/

/-- An oracle whose underlying call always raises. -/
def oracleFail : String → String → String → Except String String :=
  fun _ _ _ => .error "llm call raised"

/-- An oracle whose response holds exactly one (unpaired) fence. -/
def oracleUnpaired : String → String → String → Except String String :=
  fun _ _ _ => .ok "header```tail"

/-- A sandbox whose run always succeeds with empty combined output. -/
def dockerEmpty : String → String → Except String String :=
  fun _ _ => .ok ""

/-- A sandbox whose container call always raises. -/
def dockerFail : String → String → Except String String :=
  fun _ _ => .error "docker daemon unreachable"

/-- Three consecutive `/build` submissions for name `"demo"` with
byte-identical `input_code` (the scenario of the duplicate-guard claim). -/
def demoTriple : SysState :=
  build (build (build initState "demo" "p" "py" "x") "demo" "p" "py" "x") "demo" "p" "py" "x"

/-! ## Heap lemmas -/

theorem heapGet_heapSet_self (h : List (Nat × AppData)) (i : Nat) (a : AppData) :
    heapGet (heapSet h i a) i = a := by
  simp [heapGet, heapSet, List.find?]

theorem find?_key_filter_ne (h : List (Nat × AppData)) (i j : Nat) (hne : j ≠ i) :
    (h.filter (fun p => p.1 != i)).find? (fun p => p.1 == j)
      = h.find? (fun p => p.1 == j) := by
  induction h with
  | nil => rfl
  | cons p t ih =>
    by_cases hp : p.1 = i
    · have hij : (i == j) = false := by
        simp only [beq_eq_false_iff_ne]
        exact fun hh => hne hh.symm
      simp [List.filter_cons, hp, List.find?, hij, ih]
    · simp only [List.filter_cons, bne_iff_ne, ne_eq, hp, not_false_eq_true, if_true]
      cases hpj : (p.1 == j) with
      | true => simp [List.find?, hpj]
      | false => simp [List.find?, hpj, ih]

theorem heapGet_heapSet_ne (h : List (Nat × AppData)) (i j : Nat) (a : AppData)
    (hne : j ≠ i) : heapGet (heapSet h i a) j = heapGet h j := by
  have hij : (i == j) = false := by
    simp only [beq_eq_false_iff_ne]
    exact fun hh => hne hh.symm
  simp [heapGet, heapSet, List.find?, hij, find?_key_filter_ne h i j hne]

theorem heapGet_heapSet_name (h : List (Nat × AppData)) (i j : Nat) (a : AppData)
    (hname : a.name = (heapGet h i).name) :
    (heapGet (heapSet h i a) j).name = (heapGet h j).name := by
  by_cases hji : j = i
  · subst hji
    rw [heapGet_heapSet_self, hname]
  · rw [heapGet_heapSet_ne h i j a hji]

/-! ## Worker-pass lemmas -/

theorem pass_queue_nil
    (oracle : String → String → String → Except String String)
    (docker : String → String → Except String String)
    (st : SysState) (h : st.queue = []) :
    build_worker_pass oracle docker st = .ok st := by
  simp [build_worker_pass, h]

theorem pass_exec_some
    (oracle : String → String → String → Except String String)
    (docker : String → String → Except String String)
    (st : SysState) (i : Nat) (rest : List Nat) (bo : String)
    (hq : st.queue = i :: rest)
    (hex : execute_code docker (run_llm oracle (heapGet st.heap i).prompt (heapGet st.heap i).input_code (heapGet st.heap i).language) (heapGet st.heap i).language = .ok (some bo)) :
    build_worker_pass oracle docker st = .ok (passResult oracle st i rest bo) := by
  simp only [build_worker_pass, passResult, hq, hex]

theorem pass_exec_error
    (oracle : String → String → String → Except String String)
    (docker : String → String → Except String String)
    (st : SysState) (i : Nat) (rest : List Nat) (e : String)
    (hq : st.queue = i :: rest)
    (hex : execute_code docker (run_llm oracle (heapGet st.heap i).prompt (heapGet st.heap i).input_code (heapGet st.heap i).language) (heapGet st.heap i).language = .error e) :
    build_worker_pass oracle docker st = .error e := by
  simp only [build_worker_pass, hq, hex]

theorem pass_ok
    (oracle : String → String → String → Except String String)
    (docker : String → String → Except String String)
    (st : SysState) (i : Nat) (rest : List Nat) (bo : String)
    (hq : st.queue = i :: rest)
    (hl : (heapGet st.heap i).language = "py" ∨ (heapGet st.heap i).language = "cs")
    (hd : docker (run_llm oracle (heapGet st.heap i).prompt (heapGet st.heap i).input_code (heapGet st.heap i).language) (heapGet st.heap i).language = .ok bo) :
    build_worker_pass oracle docker st = .ok (passResult oracle st i rest bo) := by
  apply pass_exec_some oracle docker st i rest bo hq
  rcases hl with h | h <;> rw [h] at hd ⊢ <;> simp [execute_code, hd, Except.map]

/-! ## Claim C1 -/

/-- Claim C1: for every Iteration recorded by the worker, its
`is_release_candidate` flag is true if and only if the `build_output`
captured from the sandbox run, after trimming whitespace, is the empty
string.  Any iteration present after a worker pass is either one that was
already recorded or satisfies the equivalence. -/
theorem C1_release_candidate_iff
    (oracle : String → String → String → Except String String)
    (docker : String → String → Except String String)
    (st st' : SysState) (it : IterationData)
    (hok : build_worker_pass oracle docker st = .ok st')
    (hmem : it ∈ st'.iterations) :
    it ∈ st.iterations ∨ (it.is_release_candidate = true ↔ pyStrip it.build_output = "") := by
  cases hq : st.queue with
  | nil =>
    rw [pass_queue_nil oracle docker st hq] at hok
    cases hok
    exact Or.inl hmem
  | cons i rest =>
    cases hex : execute_code docker (run_llm oracle (heapGet st.heap i).prompt (heapGet st.heap i).input_code (heapGet st.heap i).language) (heapGet st.heap i).language with
    | error e =>
      rw [pass_exec_error oracle docker st i rest e hq hex] at hok
      cases hok
    | ok obo =>
      cases obo with
      | none =>
        have : build_worker_pass oracle docker st = .error "AttributeError: NoneType object has no attribute strip" := by
          simp only [build_worker_pass, hq, hex]
        rw [this] at hok
        cases hok
      | some bo =>
        rw [pass_exec_some oracle docker st i rest bo hq hex] at hok
        cases hok
        simp only [passResult, List.mem_append, List.mem_singleton] at hmem
        cases hmem with
        | inl hold => exact Or.inl hold
        | inr hnew =>
          subst hnew
          exact Or.inr (by simp [beq_iff_eq])

/-- Witness for C1 at a concrete run: one submission, a failing oracle and
a sandbox whose output is empty. -/
theorem C1_release_candidate_iff_witness :
    (⟨"w1", "p1", "c1", "c1", "", true⟩ : IterationData) ∈ (build initState "w1" "p1" "py" "c1").iterations ∨
    ((⟨"w1", "p1", "c1", "c1", "", true⟩ : IterationData).is_release_candidate = true ↔
      pyStrip (⟨"w1", "p1", "c1", "c1", "", true⟩ : IterationData).build_output = "") :=
  C1_release_candidate_iff oracleFail dockerEmpty (build initState "w1" "p1" "py" "c1") _ _ (by rfl) (by decide)

/-! ## Claim C2 -/

/-- Claim C2 (code bug): the `/build` route has no duplicate-iteration
guard at all — `Config.MAX_IDENTICAL_ITERATIONS` from src/config.py is
never consulted.  Submitting `name="demo"` three consecutive times with
byte-identical `input_code` enqueues all three submissions (nothing is
rejected), and after the worker drains the queue the Iteration count for
"demo" has risen to 3, where the claim requires the third submission to be
rejected before any Iteration is created. -/
theorem C2_no_duplicate_guard_eval :
    demoTriple.queue = [0, 0, 0] ∧
    iterCountFor "demo" (runPasses oracleFail dockerEmpty 3 demoTriple) = 3 := by
  exact ⟨rfl, rfl⟩

theorem pass_exec_none
    (oracle : String → String → String → Except String String)
    (docker : String → String → Except String String)
    (st : SysState) (i : Nat) (rest : List Nat)
    (hq : st.queue = i :: rest)
    (hex : execute_code docker (run_llm oracle (heapGet st.heap i).prompt (heapGet st.heap i).input_code (heapGet st.heap i).language) (heapGet st.heap i).language = .ok none) :
    build_worker_pass oracle docker st = .error "AttributeError: NoneType object has no attribute strip" := by
  simp only [build_worker_pass, hq, hex]

/-! ## Claim C3 -/

/-- Claim C3 counterexample: a failing sandbox call is not absorbed.  With
one queued Python submission and a container runtime that raises, the
worker pass propagates the exception out of the Worker Loop (killing the
worker thread) and no Iteration is appended. -/
theorem C3_sandbox_failure_propagates :
    build_worker_pass oracleFail dockerFail (build initState "demo3" "p3" "py" "c3")
      = .error "docker daemon unreachable" ∧
    iterCount (build_worker_pass oracleFail dockerFail (build initState "demo3" "p3" "py" "c3")) = 0 := by
  exact ⟨rfl, rfl⟩

/-- Claim C3 amended: the oracle adapter absorbs its own failures — for an
arbitrary (even always-raising) oracle, a pass whose sandbox call returns
output still succeeds and appends exactly one Iteration — but the sandbox
adapter does not: an exception from the container call propagates out of
the worker pass unchanged. -/
theorem C3_amended_absorption
    (oracle : String → String → String → Except String String)
    (docker : String → String → Except String String)
    (st : SysState) (i : Nat) (rest : List Nat)
    (hq : st.queue = i :: rest)
    (hl : (heapGet st.heap i).language = "py" ∨ (heapGet st.heap i).language = "cs") :
    ((∃ bo, docker (run_llm oracle (heapGet st.heap i).prompt (heapGet st.heap i).input_code (heapGet st.heap i).language) (heapGet st.heap i).language = .ok bo) →
      ∃ st' it, build_worker_pass oracle docker st = .ok st' ∧ st'.iterations = st.iterations ++ [it])
    ∧ (∀ e, docker (run_llm oracle (heapGet st.heap i).prompt (heapGet st.heap i).input_code (heapGet st.heap i).language) (heapGet st.heap i).language = .error e →
      build_worker_pass oracle docker st = .error e) := by
  constructor
  · rintro ⟨bo, hd⟩
    exact ⟨passResult oracle st i rest bo, _,
      pass_ok oracle docker st i rest bo hq hl hd, rfl⟩
  · intro e he
    apply pass_exec_error oracle docker st i rest e hq
    rcases hl with h | h <;> rw [h] at he ⊢ <;> simp [execute_code, he, Except.map]

/-- Witness for the amended C3 at a concrete run. -/
theorem C3_amended_absorption_witness :
    ∃ st' it, build_worker_pass oracleFail dockerEmpty (build initState "w3" "p3" "py" "c3") = .ok st' ∧
      st'.iterations = (build initState "w3" "p3" "py" "c3").iterations ++ [it] :=
  (C3_amended_absorption oracleFail dockerEmpty (build initState "w3" "p3" "py" "c3") 0 []
    (by rfl) (Or.inl (by rfl))).1 ⟨"", by rfl⟩

/-! ## Claim C4 -/

theorem run_llm_passthrough
    (oracle : String → String → String → Except String String)
    (p c l : String)
    (hfail : (∃ e, oracle p c l = .error e) ∨
             (∀ t, oracle p c l = .ok t → (pySplit fence t)[1]? = none)) :
    run_llm oracle p c l = c := by
  cases ho : oracle p c l with
  | error e => simp only [run_llm, ho]
  | ok t =>
    rcases hfail with ⟨e, he⟩ | hnone
    · rw [ho] at he
      exact absurd he (by simp)
    · simp only [run_llm, ho, hnone t ho]

/-- Claim C4 counterexample: a response holding a single, unpaired
fenced-code delimiter does not degrade to a passthrough.  The adapter
returns the text after the delimiter, which differs from the input code. -/
theorem C4_unpaired_delimiter_not_passthrough :
    run_llm oracleUnpaired "p4" "orig" "py" = "tail" ∧ "tail" ≠ "orig" := by
  exact ⟨rfl, by decide⟩

/-- Claim C4 amended: if the underlying oracle call raises, or the
response holds no fenced-code delimiter at all (so the indexing
`split("```")[1]` fails), the adapter returns `inputCode` unchanged
without raising, and the Iteration recorded by the worker pass has
`output_code` equal to its `input_code` exactly.  (A response with a
single unpaired delimiter instead yields the text after the delimiter.) -/
theorem C4_amended_passthrough
    (oracle : String → String → String → Except String String)
    (docker : String → String → Except String String)
    (st : SysState) (i : Nat) (rest : List Nat) (st' : SysState) (it : IterationData)
    (hq : st.queue = i :: rest)
    (hfail : (∃ e, oracle (heapGet st.heap i).prompt (heapGet st.heap i).input_code (heapGet st.heap i).language = .error e) ∨
             (∀ t, oracle (heapGet st.heap i).prompt (heapGet st.heap i).input_code (heapGet st.heap i).language = .ok t → (pySplit fence t)[1]? = none))
    (hok : build_worker_pass oracle docker st = .ok st')
    (hit : st'.iterations = st.iterations ++ [it]) :
    run_llm oracle (heapGet st.heap i).prompt (heapGet st.heap i).input_code (heapGet st.heap i).language = (heapGet st.heap i).input_code
    ∧ it.output_code = it.input_code := by
  have hrl := run_llm_passthrough oracle (heapGet st.heap i).prompt (heapGet st.heap i).input_code (heapGet st.heap i).language hfail
  refine ⟨hrl, ?_⟩
  cases hex : execute_code docker (run_llm oracle (heapGet st.heap i).prompt (heapGet st.heap i).input_code (heapGet st.heap i).language) (heapGet st.heap i).language with
  | error e =>
    rw [pass_exec_error oracle docker st i rest e hq hex] at hok
    cases hok
  | ok obo =>
    cases obo with
    | none =>
      rw [pass_exec_none oracle docker st i rest hq hex] at hok
      cases hok
    | some bo =>
      rw [pass_exec_some oracle docker st i rest bo hq hex] at hok
      cases hok
      have h2 : st.iterations ++ [(⟨(heapGet st.heap i).name, (heapGet st.heap i).prompt, (heapGet st.heap i).input_code, run_llm oracle (heapGet st.heap i).prompt (heapGet st.heap i).input_code (heapGet st.heap i).language, bo, pyStrip bo == ""⟩ : IterationData)] = st.iterations ++ [it] := by
        simpa [passResult] using hit
      have h3 := List.append_cancel_left h2
      injection h3 with h4 _
      rw [← h4]
      simp [hrl]

/-- Witness for the amended C4 at a concrete run with a raising oracle. -/
theorem C4_amended_passthrough_witness :
    run_llm oracleFail "p4" "c4" "py" = "c4" ∧
    (⟨"w4", "p4", "c4", "c4", "", true⟩ : IterationData).output_code
      = (⟨"w4", "p4", "c4", "c4", "", true⟩ : IterationData).input_code :=
  C4_amended_passthrough oracleFail dockerEmpty (build initState "w4" "p4" "py" "c4") 0 [] _ _
    (by rfl) (Or.inl ⟨"llm call raised", by rfl⟩) (by rfl) (by rfl)

/-! ## Claim C5 -/

/-- Claim C5 counterexample: after `/build` of "demo5" followed by
`/delete_app/0`, no Submission row exists at all, yet the worker pass
processes the queued item from the live object reference and records an
Iteration carrying the deleted row's data — the queue item is not an
identifier by which the worker re-reads current Submission state. -/
theorem C5_queue_item_not_reread :
    (delete_app (build initState "demo5" "p5" "py" "c5") 0).rows = [] ∧
    build_worker_pass oracleFail dockerEmpty (delete_app (build initState "demo5" "p5" "py" "c5") 0)
      = .ok ⟨[(0, ⟨"demo5", "p5", "c5", "py", false⟩)], [], [], [⟨"demo5", "p5", "c5", "c5", "", true⟩], 1⟩ := by
  exact ⟨rfl, rfl⟩

/-- Claim C5 amended: the Build Queue carries live references to the App
row objects (`build_queue.put(app)`), and the worker acts directly on the
dequeued object's fields; it never re-reads the Submission store, so the
outcome of a worker pass is entirely independent of the store's rows. -/
theorem C5_amended_rows_independent
    (oracle : String → String → String → Except String String)
    (docker : String → String → Except String String)
    (st : SysState) (r : List Nat) :
    build_worker_pass oracle docker { st with rows := r }
      = (build_worker_pass oracle docker st).map (fun s => { s with rows := r }) := by
  obtain ⟨h, rows0, q, its, n⟩ := st
  cases q with
  | nil => rfl
  | cons i rest =>
    simp only [build_worker_pass]
    cases hex : execute_code docker (run_llm oracle (heapGet h i).prompt (heapGet h i).input_code (heapGet h i).language) (heapGet h i).language with
    | error e => rfl
    | ok obo =>
      cases obo with
      | none => rfl
      | some bo => rfl

/-! ## Claim C6 -/

/-- Claim C6 counterexample: a Submission deleted between enqueue and
dequeue is not dropped silently.  After `/build` of "demo6" and
`/delete_app/0` the row set is empty, yet the worker pass records an
Iteration (count 1, not 0). -/
theorem C6_deleted_submission_still_processed :
    (delete_app (build initState "demo6" "p6" "py" "c6") 0).rows = [] ∧
    iterCount (build_worker_pass oracleFail dockerEmpty (delete_app (build initState "demo6" "p6" "py" "c6") 0)) = 1 := by
  exact ⟨rfl, rfl⟩

/-- Claim C6 amended: for a dequeued work item whose Submission row was
deleted between enqueue and dequeue, the worker does not look the row up
at all: it runs the full pass on the live object reference and appends an
Iteration for the deleted name; no error arises from the deletion. -/
theorem C6_amended_deleted_still_processed
    (oracle : String → String → String → Except String String)
    (docker : String → String → Except String String)
    (st : SysState) (i : Nat) (rest : List Nat) (bo : String)
    (hq : st.queue = i :: rest)
    (hdel : st.rows.contains i = false)
    (hl : (heapGet st.heap i).language = "py" ∨ (heapGet st.heap i).language = "cs")
    (hd : docker (run_llm oracle (heapGet st.heap i).prompt (heapGet st.heap i).input_code (heapGet st.heap i).language) (heapGet st.heap i).language = .ok bo) :
    ∃ st', build_worker_pass oracle docker st = .ok st' ∧
      st'.iterations = st.iterations ++ [⟨(heapGet st.heap i).name, (heapGet st.heap i).prompt, (heapGet st.heap i).input_code, run_llm oracle (heapGet st.heap i).prompt (heapGet st.heap i).input_code (heapGet st.heap i).language, bo, pyStrip bo == ""⟩] :=
  ⟨passResult oracle st i rest bo, pass_ok oracle docker st i rest bo hq hl hd, rfl⟩

/-- Witness for the amended C6 at a concrete deleted submission. -/
theorem C6_amended_deleted_still_processed_witness :
    ∃ st', build_worker_pass oracleFail dockerEmpty (delete_app (build initState "w6" "p6" "py" "c6") 0) = .ok st' ∧
      st'.iterations = (delete_app (build initState "w6" "p6" "py" "c6") 0).iterations ++ [⟨"w6", "p6", "c6", "c6", "", true⟩] :=
  C6_amended_deleted_still_processed oracleFail dockerEmpty
    (delete_app (build initState "w6" "p6" "py" "c6") 0) 0 [] ""
    (by rfl) (by rfl) (Or.inl (by rfl)) (by rfl)

/-! ## Claim C7 -/

theorem heapGet_heapSet_clear (h : List (Nat × AppData)) (i j : Nat) (q : Bool) :
    (heapGet (heapSet h i ({ heapGet h i with is_queued := q })) j).name = (heapGet h j).name
    ∧ (heapGet (heapSet h i ({ heapGet h i with is_queued := q })) j).language = (heapGet h j).language := by
  by_cases hji : j = i
  · subst hji
    rw [heapGet_heapSet_self]
    exact ⟨rfl, rfl⟩
  · rw [heapGet_heapSet_ne h i j _ hji]
    exact ⟨rfl, rfl⟩

/-- Claim C7: at most one Submission row exists per name.  On a state
whose row names are pairwise distinct (and whose ids are below the fresh
id counter), a build request keeps the names pairwise distinct; when a row
with the requested name exists, the row set is unchanged and that row is
overwritten in place with the new prompt, input code and language, with
`is_queued` set true; when none exists, exactly one new row is created. -/
theorem C7_unique_submission_per_name
    (st : SysState) (n p l c : String)
    (hnodup : (rowNames st).Nodup)
    (hbound : ∀ j ∈ st.rows, j < st.nextId) :
    (rowNames (build st n p l c)).Nodup ∧
    (∀ i, dbFirstByName st n = some i →
      (build st n p l c).rows = st.rows ∧
      heapGet (build st n p l c).heap i = ({ heapGet st.heap i with prompt := p, input_code := c, language := l, is_queued := true })) ∧
    (dbFirstByName st n = none →
      (build st n p l c).rows = st.rows ++ [st.nextId] ∧
      heapGet (build st n p l c).heap st.nextId = ⟨n, p, c, l, true⟩) := by
  cases hf : dbFirstByName st n with
  | some i =>
    refine ⟨?_, ?_, ?_⟩
    · have hsame : rowNames (build st n p l c) = rowNames st := by
        simp only [build, hf, rowNames]
        apply List.map_congr_left
        intro j hj
        exact heapGet_heapSet_name st.heap i j _ rfl
      rw [hsame]
      exact hnodup
    · intro i2 hi2
      injection hi2 with hii
      subst hii
      constructor
      · simp only [build, hf]
      · simp only [build, hf]
        exact heapGet_heapSet_self st.heap i _
    · intro h0
      cases h0
  | none =>
    have hnotin : ∀ j ∈ st.rows, (heapGet st.heap j).name ≠ n := by
      intro j hj
      have hall := List.find?_eq_none.mp (by
        have : st.rows.find? (fun i => (heapGet st.heap i).name == n) = none := hf
        exact this)
      have := hall j hj
      simpa using this
    refine ⟨?_, ?_, ?_⟩
    · have hmap : rowNames (build st n p l c) = rowNames st ++ [n] := by
        simp only [build, rowNames, hf, List.map_append, List.map_cons, List.map_nil]
        congr 1
        · apply List.map_congr_left
          intro j hj
          have hjne : j ≠ st.nextId := Nat.ne_of_lt (hbound j hj)
          rw [heapGet_heapSet_ne st.heap st.nextId j _ hjne]
        · rw [heapGet_heapSet_self]
      rw [hmap]
      rw [List.nodup_append]
      refine ⟨hnodup, List.nodup_singleton n, ?_⟩
      intro x hx hx1
      rw [List.mem_singleton] at hx1
      subst hx1
      obtain ⟨j, hj, hjn⟩ := List.mem_map.mp hx
      exact hnotin j hj hjn
    · intro i2 hi2
      cases hi2
    · intro _
      constructor
      · simp only [build, hf]
      · simp only [build, hf]
        exact heapGet_heapSet_self st.heap st.nextId _
  
/-- Witness for C7: resubmitting the existing name "a7" keeps the single
row and the names distinct. -/
theorem C7_unique_submission_per_name_witness :
    (rowNames (build (build initState "a7" "pp" "py" "cc") "a7" "p2" "cs" "c2")).Nodup :=
  (C7_unique_submission_per_name (build initState "a7" "pp" "py" "cc") "a7" "p2" "cs" "c2"
    (by decide) (by decide)).1

/-! ## Claim C8 -/

theorem runPasses_succ
    (oracle : String → String → String → Except String String)
    (docker : String → String → Except String String)
    (m : Nat) (st st1 : SysState)
    (h : build_worker_pass oracle docker st = .ok st1) :
    runPasses oracle docker (m + 1) st = runPasses oracle docker m st1 := by
  simp only [runPasses, h]

/-- Claim C8: with the single worker, the identifiers enqueued in order
`[a, b, c]` for distinct Submission names are processed strictly one at a
time in FIFO arrival order, so the three resulting Iterations are recorded
in that same relative order. -/
theorem C8_fifo_iteration_order
    (oracle : String → String → String → Except String String)
    (docker : String → String → Except String String)
    (st : SysState) (a b c : Nat)
    (hq : st.queue = [a, b, c])
    (hla : (heapGet st.heap a).language = "py" ∨ (heapGet st.heap a).language = "cs")
    (hlb : (heapGet st.heap b).language = "py" ∨ (heapGet st.heap b).language = "cs")
    (hlc : (heapGet st.heap c).language = "py" ∨ (heapGet st.heap c).language = "cs")
    (hdocker : ∀ code lang, ∃ o, docker code lang = .ok o)
    (hdist : [(heapGet st.heap a).name, (heapGet st.heap b).name, (heapGet st.heap c).name].Nodup) :
    ∃ st' it1 it2 it3,
      runPasses oracle docker 3 st = .ok st' ∧
      st'.iterations = st.iterations ++ [it1, it2, it3] ∧
      it1.app_name = (heapGet st.heap a).name ∧
      it2.app_name = (heapGet st.heap b).name ∧
      it3.app_name = (heapGet st.heap c).name := by
  obtain ⟨bo1, hd1⟩ := hdocker (run_llm oracle (heapGet st.heap a).prompt (heapGet st.heap a).input_code (heapGet st.heap a).language) (heapGet st.heap a).language
  have h1 := pass_ok oracle docker st a [b, c] bo1 hq hla hd1
  set st1 := passResult oracle st a [b, c] bo1 with hst1
  have hname1 : ∀ j, (heapGet st1.heap j).name = (heapGet st.heap j).name :=
    fun j => (heapGet_heapSet_clear st.heap a j false).1
  have hlang1 : ∀ j, (heapGet st1.heap j).language = (heapGet st.heap j).language :=
    fun j => (heapGet_heapSet_clear st.heap a j false).2
  obtain ⟨bo2, hd2⟩ := hdocker (run_llm oracle (heapGet st1.heap b).prompt (heapGet st1.heap b).input_code (heapGet st1.heap b).language) (heapGet st1.heap b).language
  have hlb1 : (heapGet st1.heap b).language = "py" ∨ (heapGet st1.heap b).language = "cs" := by
    rw [hlang1 b]
    exact hlb
  have h2 := pass_ok oracle docker st1 b [c] bo2 rfl hlb1 hd2
  set st2 := passResult oracle st1 b [c] bo2 with hst2
  have hname2 : ∀ j, (heapGet st2.heap j).name = (heapGet st1.heap j).name :=
    fun j => (heapGet_heapSet_clear st1.heap b j false).1
  have hlang2 : ∀ j, (heapGet st2.heap j).language = (heapGet st1.heap j).language :=
    fun j => (heapGet_heapSet_clear st1.heap b j false).2
  obtain ⟨bo3, hd3⟩ := hdocker (run_llm oracle (heapGet st2.heap c).prompt (heapGet st2.heap c).input_code (heapGet st2.heap c).language) (heapGet st2.heap c).language
  have hlc2 : (heapGet st2.heap c).language = "py" ∨ (heapGet st2.heap c).language = "cs" := by
    rw [hlang2 c, hlang1 c]
    exact hlc
  have h3 := pass_ok oracle docker st2 c [] bo3 rfl hlc2 hd3
  set st3 := passResult oracle st2 c [] bo3 with hst3
  have hrun : runPasses oracle docker 3 st = .ok st3 :=
    (runPasses_succ oracle docker 2 st st1 h1).trans
      ((runPasses_succ oracle docker 1 st1 st2 h2).trans
        ((runPasses_succ oracle docker 0 st2 st3 h3).trans rfl))
  refine ⟨st3,
    ⟨(heapGet st.heap a).name, (heapGet st.heap a).prompt, (heapGet st.heap a).input_code, run_llm oracle (heapGet st.heap a).prompt (heapGet st.heap a).input_code (heapGet st.heap a).language, bo1, pyStrip bo1 == ""⟩,
    ⟨(heapGet st1.heap b).name, (heapGet st1.heap b).prompt, (heapGet st1.heap b).input_code, run_llm oracle (heapGet st1.heap b).prompt (heapGet st1.heap b).input_code (heapGet st1.heap b).language, bo2, pyStrip bo2 == ""⟩,
    ⟨(heapGet st2.heap c).name, (heapGet st2.heap c).prompt, (heapGet st2.heap c).input_code, run_llm oracle (heapGet st2.heap c).prompt (heapGet st2.heap c).input_code (heapGet st2.heap c).language, bo3, pyStrip bo3 == ""⟩,
    hrun, ?_, rfl, ?_, ?_⟩
  · show st3.iterations = st.iterations ++ _
    rw [hst3, hst2, hst1]
    simp [passResult, List.append_assoc]
  · exact hname1 b
  · exact (hname2 c).trans (hname1 c)

/-- Witness for C8: three distinct submissions drained by the worker in
their enqueue order. -/
theorem C8_fifo_iteration_order_witness :
    ∃ st' it1 it2 it3,
      runPasses oracleFail dockerEmpty 3 (build (build (build initState "a8" "pa" "py" "ca") "b8" "pb" "py" "cb") "c8" "pc" "py" "cc") = .ok st' ∧
      st'.iterations = (build (build (build initState "a8" "pa" "py" "ca") "b8" "pb" "py" "cb") "c8" "pc" "py" "cc").iterations ++ [it1, it2, it3] ∧
      it1.app_name = "a8" ∧ it2.app_name = "b8" ∧ it3.app_name = "c8" :=
  C8_fifo_iteration_order oracleFail dockerEmpty
    (build (build (build initState "a8" "pa" "py" "ca") "b8" "pb" "py" "cb") "c8" "pc" "py" "cc")
    0 1 2 (by rfl) (Or.inl (by rfl)) (Or.inl (by rfl)) (Or.inl (by rfl))
    (fun _ _ => ⟨"", rfl⟩) (by decide)

/-! ## Claim C9 -/

/-- Claim C9: deleting a Submission removes only its row.  The Iteration
log is unchanged (so every Iteration referencing the application name
remains), as are the queue, the object heap and the id counter; the row
set loses exactly the row with the deleted id. -/
theorem C9_delete_app_preserves_iterations (st : SysState) (app_id : Nat) :
    (delete_app st app_id).iterations = st.iterations ∧
    (delete_app st app_id).queue = st.queue ∧
    (delete_app st app_id).heap = st.heap ∧
    (delete_app st app_id).nextId = st.nextId ∧
    (delete_app st app_id).rows = (if app_id ∈ st.rows then st.rows.erase app_id else st.rows) := by
  unfold delete_app
  by_cases h : app_id ∈ st.rows <;> simp [h]

/-! ## Claim C10 -/

/-- Claim C10: `/remove_from_queue` on an application whose row exists
changes only that Submission's `is_queued` flag to false — the Build
Queue's contents, the row set, the Iteration log and every other object
are untouched — and because the queue still holds the item, the worker
still runs the full build pass for it and still appends an Iteration. -/
theorem C10_remove_from_queue_frame
    (oracle : String → String → String → Except String String)
    (docker : String → String → Except String String)
    (st : SysState) (app_id i : Nat) (rest : List Nat) (bo : String)
    (hrow : app_id ∈ st.rows)
    (hq : st.queue = i :: rest)
    (hl : (heapGet (remove_from_queue st app_id).heap i).language = "py" ∨ (heapGet (remove_from_queue st app_id).heap i).language = "cs")
    (hd : docker (run_llm oracle (heapGet (remove_from_queue st app_id).heap i).prompt (heapGet (remove_from_queue st app_id).heap i).input_code (heapGet (remove_from_queue st app_id).heap i).language) (heapGet (remove_from_queue st app_id).heap i).language = .ok bo) :
    (remove_from_queue st app_id).queue = st.queue ∧
    (remove_from_queue st app_id).rows = st.rows ∧
    (remove_from_queue st app_id).iterations = st.iterations ∧
    heapGet (remove_from_queue st app_id).heap app_id = ({ heapGet st.heap app_id with is_queued := false }) ∧
    (∀ j, j ≠ app_id → heapGet (remove_from_queue st app_id).heap j = heapGet st.heap j) ∧
    (∃ st' it, build_worker_pass oracle docker (remove_from_queue st app_id) = .ok st' ∧
      st'.iterations = st.iterations ++ [it] ∧
      it.app_name = (heapGet (remove_from_queue st app_id).heap i).name) := by
  have hstep : remove_from_queue st app_id =
      { st with heap := heapSet st.heap app_id ({ heapGet st.heap app_id with is_queued := false }) } := by
    unfold remove_from_queue
    simp [hrow]
  refine ⟨?_, ?_, ?_, ?_, ?_, ?_⟩
  · rw [hstep]
  · rw [hstep]
  · rw [hstep]
  · rw [hstep]
    exact heapGet_heapSet_self st.heap app_id _
  · intro j hj
    rw [hstep]
    exact heapGet_heapSet_ne st.heap app_id j _ hj
  · have hq1 : (remove_from_queue st app_id).queue = i :: rest := by
      rw [hstep]
      exact hq
    have hiter : (remove_from_queue st app_id).iterations = st.iterations := by
      rw [hstep]
    refine ⟨passResult oracle (remove_from_queue st app_id) i rest bo,
      ⟨(heapGet (remove_from_queue st app_id).heap i).name, (heapGet (remove_from_queue st app_id).heap i).prompt, (heapGet (remove_from_queue st app_id).heap i).input_code, run_llm oracle (heapGet (remove_from_queue st app_id).heap i).prompt (heapGet (remove_from_queue st app_id).heap i).input_code (heapGet (remove_from_queue st app_id).heap i).language, bo, pyStrip bo == ""⟩,
      pass_ok oracle docker (remove_from_queue st app_id) i rest bo hq1 hl hd, ?_, rfl⟩
    show (remove_from_queue st app_id).iterations ++ _ = st.iterations ++ _
    rw [hiter]

/-- Witness for C10 at a concrete enqueued submission. -/
theorem C10_remove_from_queue_frame_witness :
    (remove_from_queue (build initState "w10" "pt" "py" "ct") 0).iterations
      = (build initState "w10" "pt" "py" "ct").iterations :=
  (C10_remove_from_queue_frame oracleFail dockerEmpty (build initState "w10" "pt" "py" "ct")
    0 0 [] "" (by decide) (by rfl) (Or.inl (by rfl)) (by rfl)).2.2.1
